import Mathlib

/-!
Shallow embedding of the subscription-lifecycle and instance-entitlement
core of the n8n SaaS control plane (src/models/User.js, src/models/Instance.js,
src/middleware/auth.js, src/services/trialService.js, src/routes/payments.js,
and the payments/subscription router concatenated into trialService.js).

Dates are modelled as milliseconds since epoch (Int), money as rationals,
Mongo string enums as Lean Strings, and nullable / possibly-unset fields as
Option. Database reads that the JS code performs (findById, find, countDocuments)
are passed in explicitly as function arguments.
-/

namespace Saas

/-- Subscription sub-record of the User schema (src/models/User.js lines 85-131).
The JS code also assigns fields that are not declared in the schema
(expiredAt, lastPaymentDate, payments); they are carried here because the
code writes them. -/
structure Subscription where
  plan : String
  status : String
  maxInstances : Option Int
  price : ℚ
  trialStartedAt : Int
  trialEndsAt : Int
  nextBillingDate : Option Int
  lastPaymentDate : Option Int
  expiredAt : Option Int
  payments : List (String × ℚ)
  deriving Repr, DecidableEq

/-- The fields of the User document used by the subscription / entitlement /
affiliate logic. activeReferrals stands for referralStats.activeReferrals. -/
structure User where
  id : Nat
  referredBy : Option Nat
  affiliateStatus : String
  email : String
  activeReferrals : Int
  subscription : Subscription
  deriving Repr, DecidableEq

/-- Audit metadata subfields written by the trial service
(metadata.disabledAt, metadata.disabledReason, metadata.enabledAt,
metadata.enabledReason). -/
structure InstMetadata where
  disabledAt : Option Int
  disabledReason : Option String
  enabledAt : Option Int
  enabledReason : Option String
  deriving Repr, DecidableEq

/-- The fields of the Instance document used by quota and reconciliation logic
(src/models/Instance.js). deletedAt = none means the instance is live. -/
structure Instance where
  userId : Nat
  status : String
  deletedAt : Option Int
  metadata : InstMetadata
  deriving Repr, DecidableEq

/-- The status enum of the Instance schema (src/models/Instance.js lines 20-24). -/
def instanceStatusEnum : List String :=
  ["deploying", "running", "stopped", "error", "deleting"]

/-- Document validation for the status path: a persisted Instance must have its
status inside the schema enum. -/
def schemaValidInstance (i : Instance) : Bool :=
  instanceStatusEnum.contains i.status

/-- userSchema.methods.isTrialActive (src/models/User.js lines 182-184):
status is the string trial and the clock is strictly before trialEndsAt. -/
def isTrialActive (u : User) (now : Int) : Bool :=
  u.subscription.status == "trial" && now < u.subscription.trialEndsAt

/-- userSchema.methods.isSubscriptionActive (src/models/User.js lines 186-188). -/
def isSubscriptionActive (u : User) (now : Int) : Bool :=
  u.subscription.status == "active" || isTrialActive u now

/-- The planLimits fallback table inside getMaxInstances
(src/models/User.js lines 199-203). -/
def planLimits (plan : String) : Option Int :=
  if plan == "free" then some 1
  else if plan == "starter" then some 1
  else if plan == "pro" then some (-1)
  else none

/-- JS truthiness of `x || 0` applied to a possibly-undefined table lookup:
undefined and 0 give 0, any other number gives itself. -/
def jsOrZero (x : Option Int) : Int :=
  match x with
  | some v => if v == 0 then 0 else v
  | none => 0

/-- userSchema.methods.getMaxInstances (src/models/User.js lines 190-206):
0 when the subscription is inactive, else the stored maxInstances when it is
neither undefined nor null, else planLimits[plan] || 0. -/
def getMaxInstances (u : User) (now : Int) : Int :=
  if !(isSubscriptionActive u now) then 0
  else
    match u.subscription.maxInstances with
    | some m => m
    | none => jsOrZero (planLimits u.subscription.plan)

/-- The countDocuments filter used inside canCreateInstance
(src/models/User.js lines 217-220): deletedAt null, no status condition. -/
def quotaCount (insts : List Instance) : Nat :=
  (insts.filter (fun i => i.deletedAt == none)).length

/-- The filter the spec prescribes for currentLiveCount and which the
middleware uses for its error report (src/middleware/auth.js lines 66-70):
deletedAt null and status not in deleting / error. -/
def liveNonTerminal (i : Instance) : Bool :=
  i.deletedAt == none && !(i.status == "deleting") && !(i.status == "error")

/-- Count of live, non-terminal instances (the spec-side count). -/
def liveNonTerminalCount (insts : List Instance) : Nat :=
  (insts.filter liveNonTerminal).length

/-- The decision core of userSchema.methods.canCreateInstance
(src/models/User.js lines 208-223), parameterised by the count the database
query returned: false when inactive, true when the computed limit is -1,
else count < limit. -/
def canCreateInstance (u : User) (now : Int) (instanceCount : Nat) : Bool :=
  if !(isSubscriptionActive u now) then false
  else if getMaxInstances u now == -1 then true
  else (instanceCount : Int) < getMaxInstances u now

/-- canCreateInstance including its own database count: the query it issues
filters on deletedAt null only (src/models/User.js lines 216-220). -/
def canCreateInstanceDB (u : User) (now : Int) (insts : List Instance) : Bool :=
  canCreateInstance u now (quotaCount insts)

/-- userSchema.methods.upgradeToPro (src/models/User.js lines 225-230):
sets plan, maxInstances and price, and nothing else. -/
def upgradeToPro (u : User) : User :=
  { u with subscription :=
    { u.subscription with
        plan := "pro"
        maxInstances := some (-1)
        price := (1999 : ℚ) / 100 } }

/-- Thirty days in milliseconds, as in `30 * 24 * 60 * 60 * 1000`. -/
def thirtyDaysMs : Int := 30 * 24 * 60 * 60 * 1000

/-- userSchema.methods.startPaidSubscription (src/models/User.js lines 232-236). -/
def startPaidSubscription (u : User) (now : Int) : User :=
  { u with subscription :=
    { u.subscription with
        status := "active"
        nextBillingDate := some (now + thirtyDaysMs) } }

/-- userSchema.methods.hasAffiliateAccess (src/models/User.js lines 239-241). -/
def hasAffiliateAccess (u : User) : Bool :=
  u.affiliateStatus == "active"

/-- The write performed by handleExpiredTrial on gateway success
(src/services/trialService.js lines 67-71): status becomes disabled with an
audit timestamp and reason. -/
def disableWrite (now : Int) (i : Instance) : Instance :=
  { i with
      status := "disabled"
      metadata :=
        { i.metadata with
            disabledAt := some now
            disabledReason := some "Trial expired" } }

/-- Instance.prototype.save with mongoose validate-on-save: the document is
persisted when its status lies inside the schema enum, and a ValidationError
is thrown otherwise (modelled as none). -/
def instanceSave (i : Instance) : Option Instance :=
  if schemaValidInstance i then some i else none

/-- The sequential per-instance for-loop of handleExpiredTrial
(src/services/trialService.js lines 61-77) over the stored instance list.
Instances outside the find filter (deletedAt null, status not in deleting /
error) are not part of the query result and stay untouched. For a matched
instance, gw gives the ofclockApi.disableInstance outcome: on failure the
code only logs and moves to the next instance; on success it assigns the
disabled status with audit fields and calls instance.save() — if that save
throws a ValidationError the stored document keeps its old value and the
exception propagates to the handler's try/catch, ending the loop with the
remaining instances unprocessed. Returns the stored instances together with
whether the loop ran to completion without a throw. -/
def disableLoop (gw : Instance → Bool) (now : Int) :
    List Instance → List Instance × Bool
  | [] => ([], true)
  | i :: rest =>
    if liveNonTerminal i then
      if gw i then
        match instanceSave (disableWrite now i) with
        | some i2 =>
          let r := disableLoop gw now rest
          (i2 :: r.1, r.2)
        | none => (i :: rest, false)
      else
        let r := disableLoop gw now rest
        (i :: r.1, r.2)
    else
      let r := disableLoop gw now rest
      (i :: r.1, r.2)

/-- handleExpiredTrial (src/services/trialService.js lines 49-88) on the
persisted state. The whole body runs inside one try/catch: the per-instance
loop first, then user.subscription.status = expired plus
user.subscription.expiredAt = now and user.save(). A ValidationError thrown
by an instance save is caught by that catch, so the subscription write only
happens when the loop completes without a throw; and because expiredAt is
not a schema path of the User subscription, the save drops it (mongoose
strict mode), leaving only the status change persisted. -/
def handleExpiredTrial (u : User) (insts : List Instance) (gw : Instance → Bool)
    (now : Int) : User × List Instance :=
  let r := disableLoop gw now insts
  if r.2 then
    ({ u with subscription := { u.subscription with status := "expired" } }, r.1)
  else
    (u, r.1)

/-- The find filter of enableUserInstances (src/services/trialService.js
lines 100-104): deletedAt null and status equal to disabled. -/
def disabledQuery (i : Instance) : Bool :=
  i.deletedAt == none && i.status == "disabled"

/-- One entry of Affiliate.referrals (the Affiliate schema in src/unnamed). -/
structure Referral where
  user : Nat
  lifetimeValue : ℚ
  commissionEarned : ℚ
  status : String
  transactionId : Option String
  deriving Repr, DecidableEq

/-- The Affiliate document fields mutated by processAffiliateCommission. -/
structure Affiliate where
  user : Nat
  status : String
  totalEarnings : ℚ
  pendingEarnings : ℚ
  referrals : List Referral
  deriving Repr, DecidableEq

/-- Result value returned by processAffiliateCommission on success. -/
structure CommissionResult where
  commission : ℚ
  transactionId : String
  deriving Repr, DecidableEq

/-- processAffiliateCommission (trialService.js concatenation lines 208-272).
referrer and aff are the database reads (findById of payer.referredBy and
findOne of the affiliate record). dbOk = false injects a thrown database
error at the first awaited operation; the catch-all swallows it and the
function returns null with nothing written. On success the commission of
20 percent is always added to totalEarnings and pendingEarnings; an existing
referral entry for the payer is updated in place, otherwise a new entry is
appended and the referrer's referralStats.activeReferrals is incremented.
There is no transactionId deduplication. -/
def processAffiliateCommission (payer : User) (referrer : Option User)
    (aff : Option Affiliate) (amount : ℚ) (txId : String) (dbOk : Bool) :
    Option Affiliate × Option User × Option CommissionResult :=
  if payer.referredBy == none then (aff, referrer, none)
  else if !dbOk then (aff, referrer, none)
  else
    match referrer with
    | none => (aff, none, none)
    | some r =>
      if !(hasAffiliateAccess r) then (aff, some r, none)
      else
        let a0 :=
          match aff with
          | some a => a
          | none =>
            { user := r.id, status := "active", totalEarnings := 0,
              pendingEarnings := 0, referrals := [] }
        let commission := amount * 20 / 100
        let a1 :=
          { a0 with
              totalEarnings := a0.totalEarnings + commission
              pendingEarnings := a0.pendingEarnings + commission }
        match a1.referrals.find? (fun ref => ref.user == payer.id) with
        | some _ =>
          let a2 :=
            { a1 with referrals := a1.referrals.map (fun ref =>
                if ref.user == payer.id then
                  { ref with
                      lifetimeValue := ref.lifetimeValue + amount
                      commissionEarned := ref.commissionEarned + commission
                      status := "active" }
                else ref) }
          (some a2, some r, some { commission := commission, transactionId := txId })
        | none =>
          let a2 :=
            { a1 with referrals := a1.referrals ++
                [{ user := payer.id, lifetimeValue := amount,
                   commissionEarned := commission, status := "active",
                   transactionId := some txId }] }
          let r2 := { r with activeReferrals := r.activeReferrals + 1 }
          (some a2, some r2, some { commission := commission, transactionId := txId })

/-- The documents touched by the payment webhook and the convert-to-paid
route: the paying user, the referrer document and the affiliate document. -/
structure PaymentState where
  user : User
  referrer : Option User
  affiliate : Option Affiliate
  deriving Repr, DecidableEq

/-- The payment webhook handler (trialService.js concatenation lines 427-478)
for a found user: sets lastPaymentDate = now and nextBillingDate = now + 30
days, then runs commission processing when the user has a referrer. The
returned Bool is the commissionProcessed flag of the 200 response. No check
on transactionId is performed before applying the effects. -/
def webhookPayment (st : PaymentState) (amount : ℚ) (txId : String) (now : Int) :
    PaymentState × Bool :=
  let u1 :=
    { st.user with subscription :=
      { st.user.subscription with
          lastPaymentDate := some now
          nextBillingDate := some (now + thirtyDaysMs) } }
  match u1.referredBy with
  | some _ =>
    let r := processAffiliateCommission u1 st.referrer st.affiliate amount txId true
    ({ user := u1, referrer := r.2.1, affiliate := r.1 }, r.2.2.isSome)
  | none => ({ st with user := u1 }, false)

/-- Outcome of the convert-to-paid route: the committed documents, whether
the HTTP response was the 200 success, and the commission.processed flag of
the response body. -/
structure ConvertResult where
  user : User
  referrer : Option User
  affiliate : Option Affiliate
  httpOk : Bool
  commissionProcessed : Bool
  deriving Repr, DecidableEq

/-- The convert-to-paid route (trialService.js concatenation lines 371-424):
rejects when the subscription is not in trial; otherwise sets status active
and nextBillingDate = now + 30 days (startPaidSubscription saves this outside
the session before the transaction commits), runs commission processing when
the user has a referrer — any commission failure is caught inside
processAffiliateCommission and surfaces only as a null result — and responds
200 regardless of the commission outcome. commissionDbOk injects a database
failure into the commission step. -/
def convertToPaid (u : User) (referrer : Option User) (aff : Option Affiliate)
    (commissionDbOk : Bool) (now : Int) : ConvertResult :=
  if u.subscription.status != "trial" then
    { user := u, referrer := referrer, affiliate := aff,
      httpOk := false, commissionProcessed := false }
  else
    let u1 := startPaidSubscription u now
    match u1.referredBy with
    | some _ =>
      let r := processAffiliateCommission u1 referrer aff u1.subscription.price
        ("sub_" ++ toString u1.id ++ "_" ++ toString now) commissionDbOk
      { user := u1, referrer := r.2.1, affiliate := r.1,
        httpOk := true, commissionProcessed := r.2.2.isSome }
    | none =>
      { user := u1, referrer := referrer, affiliate := aff,
        httpOk := true, commissionProcessed := false }

/-- Empty audit metadata. -/
def emptyMeta : InstMetadata :=
  { disabledAt := none, disabledReason := none, enabledAt := none,
    enabledReason := none }

/-- A baseline starter subscription in trial until t = 100. -/
def baseSub : Subscription :=
  { plan := "starter", status := "trial", maxInstances := some 1, price := 4,
    trialStartedAt := 0, trialEndsAt := 100, nextBillingDate := none,
    lastPaymentDate := none, expiredAt := none, payments := [] }

/-- A baseline user holding baseSub. -/
def baseUser : User :=
  { id := 1, referredBy := none, affiliateStatus := "not_affiliate",
    email := "a@b.co", activeReferrals := 0, subscription := baseSub }

/-- A user whose subscription has expired. -/
def expiredUser : User :=
  { baseUser with subscription := { baseSub with status := "expired" } }

/-- A user with an active paid starter subscription, limit 1. -/
def activeStarterUser : User :=
  { baseUser with subscription := { baseSub with status := "active" } }

/-- An active user with no stored maxInstances value, on the starter plan. -/
def activeNoStoredUser : User :=
  { baseUser with subscription :=
    { baseSub with status := "active", maxInstances := none } }

/-- An active pro user with the unlimited marker stored. -/
def proActiveUser : User :=
  { baseUser with subscription :=
    { baseSub with status := "active", plan := "pro", maxInstances := some (-1) } }

/-- A live instance in error state: counted by the quota query of
canCreateInstance, excluded by the filter the spec prescribes. -/
def cexErrorInstance : Instance :=
  { userId := 1, status := "error", deletedAt := none, metadata := emptyMeta }

/-- A live running instance. -/
def runningInstance : Instance :=
  { userId := 1, status := "running", deletedAt := none, metadata := emptyMeta }

/-- A trial user referred by user 2. -/
def referredTrialUser : User :=
  { baseUser with referredBy := some 2 }

/-- User 2, an active affiliate. -/
def affiliateReferrer : User :=
  { baseUser with
      id := 2
      affiliateStatus := "active"
      subscription := { baseSub with status := "active" } }

/-- An affiliate document for user 2 with no referrals yet. -/
def emptyAffiliate : Affiliate :=
  { user := 2, status := "active", totalEarnings := 0, pendingEarnings := 0,
    referrals := [] }

end Saas

namespace Saas

/-- Claim C8: for a subscription in trial status, isTrialActive holds exactly
when now is strictly before trialEndsAt, and it is false at and after
trialEndsAt; for any other status it is false. -/
theorem claim_C8_isTrialActive (u : User) (now : Int) :
    (u.subscription.status = "trial" →
      (isTrialActive u now = true ↔ now < u.subscription.trialEndsAt)) ∧
    (u.subscription.status ≠ "trial" → isTrialActive u now = false) := by
  constructor
  · intro h
    simp [isTrialActive, h]
  · intro h
    simp [isTrialActive]
    intro h2
    exact absurd h2 h

theorem claim_C8_witness :
    isTrialActive
      { id := 1, referredBy := none, affiliateStatus := "not_affiliate",
        email := "a@b.co", activeReferrals := 0,
        subscription :=
          { plan := "starter", status := "trial", maxInstances := some 1,
            price := 4, trialStartedAt := 0, trialEndsAt := 100,
            nextBillingDate := none, lastPaymentDate := none,
            expiredAt := none, payments := [] } } 50 = true := by
  exact ((claim_C8_isTrialActive _ 50).1 rfl).mpr (by decide)

/-- Claim C9: getMaxInstances is 0 when the subscription is inactive;
otherwise it is the stored maxInstances field when that field is set, and
otherwise the plan-default lookup giving 1 for starter and -1 for pro. -/
theorem claim_C9_getMaxInstances (u : User) (now : Int) :
    (isSubscriptionActive u now = false → getMaxInstances u now = 0) ∧
    (isSubscriptionActive u now = true →
      ∀ m, u.subscription.maxInstances = some m → getMaxInstances u now = m) ∧
    (isSubscriptionActive u now = true → u.subscription.maxInstances = none →
      u.subscription.plan = "starter" → getMaxInstances u now = 1) ∧
    (isSubscriptionActive u now = true → u.subscription.maxInstances = none →
      u.subscription.plan = "pro" → getMaxInstances u now = -1) := by
  refine ⟨?_, ?_, ?_, ?_⟩
  · intro h
    simp [getMaxInstances, h]
  · intro h m hm
    simp [getMaxInstances, h, hm]
  · intro h hm hp
    simp [getMaxInstances, h, hm, hp, planLimits, jsOrZero]
  · intro h hm hp
    simp [getMaxInstances, h, hm, hp, planLimits, jsOrZero]

theorem claim_C9_witness : getMaxInstances activeNoStoredUser 50 = 1 := by
  exact (claim_C9_getMaxInstances activeNoStoredUser 50).2.2.1 (by decide) (by decide)
    (by decide)

/-- Claim C10: canCreateInstance is false for every inactive subscription
whatever the count; true for every count when the computed maxInstances is
-1; and false for every count at or above a finite (non -1) maxInstances. -/
theorem claim_C10_canCreateInstance (u : User) (now : Int) (count : Nat) :
    (isSubscriptionActive u now = false → canCreateInstance u now count = false) ∧
    (getMaxInstances u now = -1 → canCreateInstance u now count = true) ∧
    (getMaxInstances u now ≠ -1 → getMaxInstances u now ≤ (count : Int) →
      canCreateInstance u now count = false) := by
  refine ⟨?_, ?_, ?_⟩
  · intro h
    simp [canCreateInstance, h]
  · intro h
    have hact : isSubscriptionActive u now = true := by
      cases hb : isSubscriptionActive u now
      · rw [getMaxInstances] at h
        simp [hb] at h
      · rfl
    simp [canCreateInstance, hact, h]
  · intro h hle
    cases hact : isSubscriptionActive u now
    · simp [canCreateInstance, hact]
    · simp [canCreateInstance, hact, h]
      omega

theorem claim_C10_witness : canCreateInstance proActiveUser 50 1000000 = true := by
  exact (claim_C10_canCreateInstance proActiveUser 50 1000000).2.1 (by decide)

/-- Claim C6 counterexample: upgradeToPro on a user whose subscription has
expired leaves subscription.status equal to expired, not active, so the
upgrade path does not realize the star-to-active transition. -/
theorem claim_C6_counterexample :
    (upgradeToPro expiredUser).subscription.status = "expired" ∧
    (upgradeToPro expiredUser).subscription.status ≠ "active" := by
  constructor
  · rfl
  · decide

/-- Claim C6 amended: upgradeToPro sets plan to pro, the stored maxInstances
to -1 and the price to 19.99, and leaves subscription.status unchanged — it
performs no status transition at all. -/
theorem claim_C6_amended (u : User) :
    (upgradeToPro u).subscription.plan = "pro" ∧
    (upgradeToPro u).subscription.maxInstances = some (-1) ∧
    (upgradeToPro u).subscription.price = (1999 : ℚ) / 100 ∧
    (upgradeToPro u).subscription.status = u.subscription.status := by
  refine ⟨rfl, rfl, rfl, rfl⟩

/-- Claim C7 counterexample: after upgradeToPro on a user whose subscription
has expired, the computed maxInstances is 0, not -1. -/
theorem claim_C7_counterexample :
    getMaxInstances (upgradeToPro expiredUser) 50 = 0 ∧
    getMaxInstances (upgradeToPro expiredUser) 50 ≠ -1 := by
  constructor
  · decide
  · decide

/-- Claim C7 amended: once the plan is set via the upgrade path, the computed
maxInstances is -1 whenever the subscription is active (status active or an
unexpired trial); when the subscription is inactive it is 0. -/
theorem claim_C7_amended (u : User) (now : Int)
    (h : isSubscriptionActive (upgradeToPro u) now = true) :
    getMaxInstances (upgradeToPro u) now = -1 := by
  simp only [upgradeToPro] at h
  simp [getMaxInstances, upgradeToPro, h]

theorem claim_C7_witness :
    getMaxInstances (upgradeToPro activeStarterUser) 50 = -1 := by
  exact claim_C7_amended activeStarterUser 50 (by decide)

/-- Claim C1 counterexample: a single live instance in error state. The count
canCreateInstance queries (deletedAt null only) is 1, the count the claim
prescribes (deletedAt null and status outside deleting / error) is 0, and for
an active starter user with limit 1 the code denies creation while the
claimed count would permit it. -/
theorem claim_C1_counterexample :
    quotaCount [cexErrorInstance] = 1 ∧
    liveNonTerminalCount [cexErrorInstance] = 0 ∧
    canCreateInstanceDB activeStarterUser 50 [cexErrorInstance] = false ∧
    canCreateInstance activeStarterUser 50
      (liveNonTerminalCount [cexErrorInstance]) = true := by
  refine ⟨?_, ?_, ?_, ?_⟩
  · decide
  · decide
  · decide
  · decide

/-- Claim C1 amended: the count used by the quota check in canCreateInstance
is the number of the user's instances with deletedAt = null, with no status
condition — instances in deleting or error state still count. With this
count, for a finite maxInstances, creation is permitted iff the count is
strictly below maxInstances. The deleting / error exclusion appears only in
the error report of the checkInstanceLimit middleware. -/
theorem claim_C1_amended (u : User) (now : Int) (insts : List Instance)
    (hact : isSubscriptionActive u now = true)
    (hfin : getMaxInstances u now ≠ -1) :
    (canCreateInstanceDB u now insts = true ↔
      (quotaCount insts : Int) < getMaxInstances u now) := by
  simp [canCreateInstanceDB, canCreateInstance, hact, hfin]

theorem claim_C1_witness :
    canCreateInstanceDB activeStarterUser 50 [] = true := by
  exact (claim_C1_amended activeStarterUser 50 [] (by decide) (by decide)).mpr
    (by decide)

/-- Claim C2, evaluated at the failing input: an expired-trial user (trial
ended at 100, tick at 200) with one live running instance whose gateway
disable call succeeds. The disabled write fails schema validation on save,
the handler's catch ends the tick, and the persisted state shows the claim
violated on both counts: the instance is still running (not disabled, no
audit fields) and the subscription is still trial (never set to expired). -/
theorem claim_C2_codeBug :
    schemaValidInstance (disableWrite 200 runningInstance) = false ∧
    instanceSave (disableWrite 200 runningInstance) = none ∧
    (handleExpiredTrial baseUser [runningInstance] (fun _ => true) 200).2 =
      [runningInstance] ∧
    (handleExpiredTrial baseUser [runningInstance] (fun _ => true)
      200).1.subscription.status = "trial" ∧
    (handleExpiredTrial baseUser [runningInstance] (fun _ => true)
      200).1 = baseUser := by
  refine ⟨?_, ?_, ?_, ?_, ?_⟩ <;> decide

/-- Claim C5: the Instance schema status enum is exactly deploying, running,
stopped, error, deleting — it contains no disabled value — so the
trial-reconciliation write produces a status that fails document validation,
and the payment-path query for status = disabled matches no schema-valid
instance. -/
theorem claim_C5_disabledStatusInvalid (i j : Instance) (now : Int)
    (hv : schemaValidInstance j = true) :
    "disabled" ∉ instanceStatusEnum ∧
    (disableWrite now i).status = "disabled" ∧
    schemaValidInstance (disableWrite now i) = false ∧
    j.status ≠ "disabled" ∧
    disabledQuery j = false := by
  have hmem : j.status = "deploying" ∨ j.status = "running" ∨
      j.status = "stopped" ∨ j.status = "error" ∨ j.status = "deleting" := by
    simpa [schemaValidInstance, instanceStatusEnum] using hv
  have hne : j.status ≠ "disabled" := by
    rcases hmem with h | h | h | h | h <;> simp [h]
  refine ⟨by decide, rfl, rfl, hne, ?_⟩
  simp [disabledQuery]
  intro _
  exact hne

theorem claim_C5_witness :
    schemaValidInstance runningInstance = true ∧
    disabledQuery runningInstance = false := by
  have h := claim_C5_disabledStatusInvalid runningInstance runningInstance 0
    (by decide)
  exact ⟨by decide, h.2.2.2.2⟩

/-- Helper: for a referred payer with an active-affiliate referrer and an
existing affiliate document, a successful run of processAffiliateCommission
always adds 20 percent of the amount to both totalEarnings and
pendingEarnings, returns a non-null result, and leaves the referrer's
affiliate access unchanged. There is no dependence on the transaction id. -/
theorem processCommission_earnings (payer r : User) (a : Affiliate)
    (amount : ℚ) (txId : String) (rid : Nat)
    (href : payer.referredBy = some rid) (hacc : hasAffiliateAccess r = true) :
    ∃ a2 r2, processAffiliateCommission payer (some r) (some a) amount txId true =
      (some a2, some r2,
        some { commission := amount * 20 / 100, transactionId := txId }) ∧
      a2.totalEarnings = a.totalEarnings + amount * 20 / 100 ∧
      a2.pendingEarnings = a.pendingEarnings + amount * 20 / 100 ∧
      hasAffiliateAccess r2 = true := by
  cases hf : a.referrals.find? (fun ref => ref.user == payer.id) with
  | none =>
    refine ⟨{ a with
        totalEarnings := a.totalEarnings + amount * 20 / 100
        pendingEarnings := a.pendingEarnings + amount * 20 / 100
        referrals := a.referrals ++
          [{ user := payer.id, lifetimeValue := amount,
             commissionEarned := amount * 20 / 100, status := "active",
             transactionId := some txId }] },
      { r with activeReferrals := r.activeReferrals + 1 }, ?_, rfl, rfl, hacc⟩
    simp [processAffiliateCommission, href, hacc, hf]
  | some x =>
    refine ⟨{ a with
        totalEarnings := a.totalEarnings + amount * 20 / 100
        pendingEarnings := a.pendingEarnings + amount * 20 / 100
        referrals := a.referrals.map (fun ref =>
          if ref.user == payer.id then
            { ref with
                lifetimeValue := ref.lifetimeValue + amount
                commissionEarned := ref.commissionEarned + amount * 20 / 100
                status := "active" }
          else ref) },
      r, ?_, rfl, rfl, hacc⟩
    simp [processAffiliateCommission, href, hacc, hf]

/-- Helper: the payment webhook for a referred user with an active-affiliate
referrer updates the billing dates and runs commission processing, which adds
20 percent of the amount to the affiliate earnings on every delivery. -/
theorem webhookPayment_effect (st : PaymentState) (r : User) (a : Affiliate)
    (rid : Nat) (amount : ℚ) (txId : String) (now : Int)
    (href : st.user.referredBy = some rid)
    (hr : st.referrer = some r) (ha : st.affiliate = some a)
    (hacc : hasAffiliateAccess r = true) :
    ∃ a1 r1,
      (webhookPayment st amount txId now).1.user =
        { st.user with subscription :=
            { st.user.subscription with
                lastPaymentDate := some now
                nextBillingDate := some (now + thirtyDaysMs) } } ∧
      (webhookPayment st amount txId now).1.referrer = some r1 ∧
      (webhookPayment st amount txId now).1.affiliate = some a1 ∧
      a1.totalEarnings = a.totalEarnings + amount * 20 / 100 ∧
      a1.pendingEarnings = a.pendingEarnings + amount * 20 / 100 ∧
      hasAffiliateAccess r1 = true := by
  obtain ⟨a1, r1, heq, ht, hp, hc⟩ := processCommission_earnings
    { st.user with subscription :=
        { st.user.subscription with
            lastPaymentDate := some now
            nextBillingDate := some (now + thirtyDaysMs) } }
    r a amount txId rid href hacc
  simp only [href] at heq
  refine ⟨a1, r1, ?_, ?_, ?_, ht, hp, hc⟩ <;>
    simp [webhookPayment, href, hr, ha, heq]

/-- Claim C3 counterexample: delivering the same payment-confirmation event
(userId 1, amount 4, transactionId tx1, same instant) twice does not leave
the state of processing it once — the affiliate commission is applied again
on the replay. -/
theorem claim_C3_counterexample :
    (webhookPayment
      (webhookPayment
        { user := referredTrialUser, referrer := some affiliateReferrer,
          affiliate := some emptyAffiliate } 4 "tx1" 200).1 4 "tx1" 200).1 ≠
    (webhookPayment
      { user := referredTrialUser, referrer := some affiliateReferrer,
        affiliate := some emptyAffiliate } 4 "tx1" 200).1 := by
  obtain ⟨a1, r1, h1u, h1r, h1a, ht1, hp1, hc1⟩ := webhookPayment_effect
    { user := referredTrialUser, referrer := some affiliateReferrer,
      affiliate := some emptyAffiliate }
    affiliateReferrer emptyAffiliate 2 4 "tx1" 200 rfl rfl rfl (by decide)
  obtain ⟨a2, r2, h2u, h2r, h2a, ht2, hp2, hc2⟩ := webhookPayment_effect
    (webhookPayment
      { user := referredTrialUser, referrer := some affiliateReferrer,
        affiliate := some emptyAffiliate } 4 "tx1" 200).1
    r1 a1 2 4 "tx1" 200 (by rw [h1u]; rfl) h1r h1a hc1
  intro h
  have ha12 : a2 = a1 := by
    have := congrArg PaymentState.affiliate h
    rw [h2a, h1a] at this
    exact Option.some.inj this
  have habs : a1.totalEarnings + 4 * 20 / 100 = a1.totalEarnings := by
    rw [← ht2, ha12]
  have hzero : (4 : ℚ) * 20 / 100 = 0 := by linarith
  norm_num at hzero

/-- Claim C3 amended: neither the webhook nor commission processing checks
transactionId before applying effects: every delivery of the same
payment-confirmation event adds 20 percent of the amount to the affiliate
totalEarnings and pendingEarnings again, and re-sets nextBillingDate to 30
days after the processing time (so a replay at the same instant leaves
nextBillingDate equal but doubles the commission). Processing is not
idempotent. -/
theorem claim_C3_amended (u r : User) (a : Affiliate) (rid : Nat) (amount : ℚ)
    (txId : String) (now : Int)
    (href : u.referredBy = some rid) (hacc : hasAffiliateAccess r = true) :
    ∃ a1 a2,
      (webhookPayment { user := u, referrer := some r, affiliate := some a }
        amount txId now).1.affiliate = some a1 ∧
      (webhookPayment
        (webhookPayment { user := u, referrer := some r, affiliate := some a }
          amount txId now).1 amount txId now).1.affiliate = some a2 ∧
      a1.totalEarnings = a.totalEarnings + amount * 20 / 100 ∧
      a2.totalEarnings = a.totalEarnings + amount * 20 / 100 + amount * 20 / 100 ∧
      a1.pendingEarnings = a.pendingEarnings + amount * 20 / 100 ∧
      a2.pendingEarnings =
        a.pendingEarnings + amount * 20 / 100 + amount * 20 / 100 ∧
      (webhookPayment { user := u, referrer := some r, affiliate := some a }
        amount txId now).1.user.subscription.nextBillingDate =
        some (now + thirtyDaysMs) ∧
      (webhookPayment
        (webhookPayment { user := u, referrer := some r, affiliate := some a }
          amount txId now).1 amount txId now).1.user.subscription.nextBillingDate =
        some (now + thirtyDaysMs) := by
  obtain ⟨a1, r1, h1u, h1r, h1a, ht1, hp1, hc1⟩ := webhookPayment_effect
    { user := u, referrer := some r, affiliate := some a } r a rid amount txId
    now href rfl rfl hacc
  obtain ⟨a2, r2, h2u, h2r, h2a, ht2, hp2, hc2⟩ := webhookPayment_effect
    (webhookPayment { user := u, referrer := some r, affiliate := some a }
      amount txId now).1 r1 a1 rid amount txId now (by rw [h1u]; exact href)
    h1r h1a hc1
  refine ⟨a1, a2, h1a, h2a, ht1, ?_, hp1, ?_, ?_, ?_⟩
  · rw [ht2, ht1]
  · rw [hp2, hp1]
  · rw [h1u]
  · rw [h2u, h1u]

theorem claim_C3_witness :
    ∃ a1 a2,
      (webhookPayment
        { user := referredTrialUser, referrer := some affiliateReferrer,
          affiliate := some emptyAffiliate } 4 "tx1" 200).1.affiliate = some a1 ∧
      (webhookPayment
        (webhookPayment
          { user := referredTrialUser, referrer := some affiliateReferrer,
            affiliate := some emptyAffiliate } 4 "tx1" 200).1
        4 "tx1" 200).1.affiliate = some a2 ∧
      a1.totalEarnings = 4 * 20 / 100 ∧
      a2.totalEarnings = 4 * 20 / 100 + 4 * 20 / 100 := by
  obtain ⟨a1, a2, h1, h2, h3, h4, -⟩ := claim_C3_amended referredTrialUser
    affiliateReferrer emptyAffiliate 2 4 "tx1" 200 rfl rfl
  refine ⟨a1, a2, h1, h2, ?_, ?_⟩
  · rw [h3]; norm_num [emptyAffiliate]
  · rw [h4]; norm_num [emptyAffiliate]

/-- Claim C4 counterexample: converting a referred trial user to paid while
the commission step hits a database error (which processAffiliateCommission
catches and turns into a null result) still commits: the subscription is
observed active, the HTTP response is the 200 success, no commission was
recorded (the affiliate document is unchanged), and no error is surfaced —
the operation is not all-or-nothing. -/
theorem claim_C4_counterexample :
    (convertToPaid referredTrialUser (some affiliateReferrer)
      (some emptyAffiliate) false 50).user.subscription.status = "active" ∧
    (convertToPaid referredTrialUser (some affiliateReferrer)
      (some emptyAffiliate) false 50).httpOk = true ∧
    (convertToPaid referredTrialUser (some affiliateReferrer)
      (some emptyAffiliate) false 50).commissionProcessed = false ∧
    (convertToPaid referredTrialUser (some affiliateReferrer)
      (some emptyAffiliate) false 50).affiliate = some emptyAffiliate := by
  refine ⟨?_, ?_, ?_, ?_⟩ <;> decide

/-- Claim C4 amended: payment and commission processing is not atomic. A
failure inside commission processing is swallowed (the catch returns null):
the conversion still commits with subscription.status = active, the referrer
and affiliate documents are left untouched (no commission record), the
response is the 200 success and commission.processed is merely reported
false. Commission writes also happen outside the transaction session, so an
abort of the final user save would not undo them. -/
theorem claim_C4_amended (u : User) (referrer : Option User)
    (aff : Option Affiliate) (now : Int)
    (htrial : u.subscription.status = "trial") :
    (convertToPaid u referrer aff false now).user.subscription.status =
      "active" ∧
    (convertToPaid u referrer aff false now).user.subscription.nextBillingDate =
      some (now + thirtyDaysMs) ∧
    (convertToPaid u referrer aff false now).affiliate = aff ∧
    (convertToPaid u referrer aff false now).referrer = referrer ∧
    (convertToPaid u referrer aff false now).httpOk = true ∧
    (convertToPaid u referrer aff false now).commissionProcessed = false := by
  cases hrefBy : u.referredBy <;>
    simp [convertToPaid, htrial, startPaidSubscription,
      processAffiliateCommission, hrefBy]

theorem claim_C4_witness :
    (convertToPaid referredTrialUser none none false 77).user.subscription.status
      = "active" ∧
    (convertToPaid referredTrialUser none none false 77).httpOk = true := by
  have h := claim_C4_amended referredTrialUser none none 77 rfl
  exact ⟨h.1, h.2.2.2.2.1⟩

end Saas
